import Mathlib

/-!
Shallow embedding of `src/backend.py` (FastAPI RAG chatbot backend).

The backend keeps three module-level globals (`vectorstore`, `chat_history`,
`sessions`); only `vectorstore` and `sessions` are ever read or written by the
route handlers, so the state type carries those two.  Third-party collaborators
(document loaders, text splitter, FAISS retriever, the LangChain retrieval
chain, the Groq LLM) are modelled as an `Env` record of oracle functions; the
fallible ones return `Except String` so that every exception path of the Python
code has a counterpart here.  `HTTPException(status, detail)` is modelled by
`Exn.http`; a generic collaborator exception by `Exn.other`.  Python's
`str(e)` on a starlette `HTTPException` renders as `"<status>: <detail>"`,
which `strOfExn` reproduces; the blanket `except Exception` handlers at
backend.py:97 and backend.py:175 re-raise every exception (including the
handlers' own 400 `HTTPException`s) as `HTTPException(500, str(e))`.
-/

namespace DocChatbot

/-- One question/answer exchange appended to a session's history
(backend.py:166-171). -/
structure Turn where
  question : String
  answer : String
  timestamp : String
  mode : String
  deriving Repr, DecidableEq

/-- Per-session state created at backend.py:111-118: the `history` list and the
`ConversationBufferMemory` (modelled as the list of question/answer pairs the
memory has saved). -/
structure Session where
  history : List Turn
  memory : List (String × String)
  deriving Repr, DecidableEq

/-- The error a route handler surfaces to the HTTP client:
`HTTPException(status_code, detail)`. -/
structure HTTPError where
  status : Nat
  detail : String
  deriving Repr, DecidableEq

/-- An exception in flight inside a handler's `try` block: either an
`HTTPException` raised by the handler itself or a collaborator exception
carrying a message. -/
inductive Exn where
  | http (status : Nat) (detail : String)
  | other (msg : String)
  deriving Repr, DecidableEq

/-- Python's `str(e)`: a starlette `HTTPException` prints as
`"<status_code>: <detail>"`; a plain exception prints its message. -/
def strOfExn : Exn → String
  | .http s d => toString s ++ ": " ++ d
  | .other m => m

/-- An uploaded multipart file: its filename (which selects the loader) and its
raw bytes. -/
structure UploadFile where
  filename : String
  content : String
  deriving Repr, DecidableEq

/-- Third-party collaborators, as oracles.
* `loadPdf` / `loadDocx` — `PyPDFLoader(...).load()` / `Docx2txtLoader(...).load()`,
  returning the extracted document texts (fallible).
* `split size overlap docs` — `RecursiveCharacterTextSplitter(chunk_size=size,
  chunk_overlap=overlap).split_documents(docs)`, returning chunk texts.
* `retrieve vs k q` — `vectorstore.as_retriever(search_kwargs=k)
  .get_relevant_documents(q)`, returning the page contents of the top-k chunks.
* `chain vs k mem q` — `ConversationalRetrievalChain.from_llm(llm, retriever(k),
  memory=mem)` applied to question `q`, returning the answer (fallible).
* `llm p` — `llm.invoke(p).content` (fallible). -/
structure Env where
  loadPdf : UploadFile → Except String (List String)
  loadDocx : UploadFile → Except String (List String)
  split : Nat → Nat → List String → List String
  retrieve : List String → Nat → String → List String
  chain : List String → Nat → List (String × String) → String → Except String String
  llm : String → Except String String

/-- The module-level globals of backend.py that the handlers use: the single
global `vectorstore` (backend.py:31, `None` until some upload succeeds) and the
`sessions` dict (backend.py:33), modelled as an association list in insertion
order. -/
structure BackendState where
  vectorstore : Option (List String)
  sessions : List (String × Session)
  deriving Repr, DecidableEq

/-- The state at process start: no vectorstore, no sessions. -/
def initState : BackendState := ⟨none, []⟩

/-- Dict lookup on the sessions association list. -/
def lookupSession : List (String × Session) → String → Option Session
  | [], _ => none
  | (k, v) :: rest, sid => if k = sid then some v else lookupSession rest sid

/-- Dict assignment `sessions[sid] = s`: replace in place if present, append
otherwise (Python dicts keep insertion order). -/
def setSession : List (String × Session) → String → Session → List (String × Session)
  | [], sid, s => [(sid, s)]
  | (k, v) :: rest, sid, s =>
      if k = sid then (sid, s) :: rest else (k, v) :: setSession rest sid s

/-- Dict deletion `del sessions[sid]`. -/
def eraseSession : List (String × Session) → String → List (String × Session)
  | [], _ => []
  | (k, v) :: rest, sid =>
      if k = sid then eraseSession rest sid else (k, v) :: eraseSession rest sid

/-- A fresh session as created at backend.py:111-118: empty history, empty
conversation memory. -/
def emptySession : Session := ⟨[], []⟩

/-- Request body of `POST /query` (backend.py:36-39). -/
structure QueryRequest where
  question : String
  mode : String
  session_id : String
  deriving Repr, DecidableEq

/-- Response body of `POST /query` (backend.py:41-43). -/
structure ChatResponse where
  answer : String
  session_id : String
  deriving Repr, DecidableEq

/-- Response body of a successful `POST /upload` (backend.py:95). -/
structure UploadResponse where
  message : String
  chunks : Nat
  deriving Repr, DecidableEq

/-- Python's `l[-n:]`: the last `n` elements. -/
def lastN (n : Nat) (l : List α) : List α := l.drop (l.length - n)

/-- backend.py:154-155 — `"\n".join(f"Human: {q}\nAI: {a}" for last 3 turns)`. -/
def historyText (hist : List Turn) : String :=
  String.intercalate "\n"
    ((lastN 3 hist).map fun h => "Human: " ++ h.question ++ "\nAI: " ++ h.answer)

/-- backend.py:145-149 — the hybrid-mode f-string template (the blank line after
the context keeps the literal trailing spaces of the source). -/
def docPrompt (context q : String) : String :=
  "Context from document: " ++ context ++ "\n                \nQuestion: " ++ q ++
    "\n\nPlease answer using both the document context and your general knowledge."

/-- backend.py:139-151 — the base prompt of hybrid mode: top-2 retrieved chunks
joined by newlines and wrapped in the template when a vectorstore exists, the
raw question otherwise. -/
def basePrompt (env : Env) (vsOpt : Option (List String)) (q : String) : String :=
  match vsOpt with
  | some vs => docPrompt (String.intercalate "\n" (env.retrieve vs 2 q)) q
  | none => q

/-- backend.py:139-160 — the full prompt hybrid mode sends to the LLM:
the base prompt, with `"Previous conversation:\n<history>\n\n"` prepended when
the history text is non-empty (Python string truthiness). -/
def hybridPrompt (env : Env) (vsOpt : Option (List String)) (hist : List Turn)
    (q : String) : String :=
  let p := basePrompt env vsOpt q
  let ht := historyText hist
  if ht = "" then p else "Previous conversation:\n" ++ ht ++ "\n\n" ++ p

/-- backend.py:110-118 — `if request.session_id not in sessions: sessions[...] =
{"history": [], "memory": ...}`. -/
def getOrCreate (sessions : List (String × Session)) (sid : String) :
    List (String × Session) :=
  match lookupSession sessions sid with
  | some _ => sessions
  | none => setSession sessions sid emptySession

/-- The body of the `try` block of `query_chatbot` (backend.py:106-173).
The get-or-create of the session (backend.py:110-118) mutates the global
`sessions` dict before any error can occur, so the returned state reflects it
on every path. -/
def queryInner (env : Env) (st : BackendState) (req : QueryRequest)
    (now : String) : Except Exn ChatResponse × BackendState :=
  let sessions1 := getOrCreate st.sessions req.session_id
  let session := (lookupSession sessions1 req.session_id).getD emptySession
  let st1 : BackendState := ⟨st.vectorstore, sessions1⟩
  if req.mode = "document_only" then
    match st.vectorstore with
    | none => (.error (.http 400 "No document uploaded"), st1)
    | some vs =>
      match env.chain vs 3 session.memory req.question with
      | .error e => (.error (.other e), st1)
      | .ok answer =>
          let session' : Session :=
            ⟨session.history ++ [⟨req.question, answer, now, req.mode⟩],
             session.memory ++ [(req.question, answer)]⟩
          (.ok ⟨answer, req.session_id⟩,
           ⟨st.vectorstore, setSession sessions1 req.session_id session'⟩)
  else
    match env.llm (hybridPrompt env st.vectorstore session.history req.question) with
    | .error e => (.error (.other e), st1)
    | .ok answer =>
        let session' : Session :=
          ⟨session.history ++ [⟨req.question, answer, now, req.mode⟩],
           session.memory⟩
        (.ok ⟨answer, req.session_id⟩,
         ⟨st.vectorstore, setSession sessions1 req.session_id session'⟩)

/-- `POST /query` (backend.py:102-176): the `try` body, with the blanket
`except Exception as e: raise HTTPException(500, str(e))` — which also catches
the handler's own 400 `HTTPException` and re-raises it with status 500. -/
def query_chatbot (env : Env) (st : BackendState) (req : QueryRequest)
    (now : String) : Except HTTPError ChatResponse × BackendState :=
  match queryInner env st req now with
  | (.ok r, st') => (.ok r, st')
  | (.error e, st') => (.error ⟨500, strOfExn e⟩, st')

/-- Python's `str.endswith(suffix)`, on the character lists of the strings
(the library `String.endsWith` is extensionally the same but is defined by
well-founded recursion on byte positions, which blocks kernel evaluation). -/
def strEndsWith (s suffix : String) : Bool :=
  decide (s.data.drop (s.data.length - suffix.data.length) = suffix.data)

/-- `s` is empty or consists of whitespace only — equivalently, `s` trims to
the empty string.  (The spec's `EmptyQuestion` precondition talks about such
questions; backend.py performs no such check anywhere.) -/
def isBlank (s : String) : Bool := s.data.all fun c => c.isWhitespace

/-- The body of the `try` block of `upload_document` (backend.py:63-95):
pick the loader by filename extension (`.pdf` first, then `.docx`, otherwise
`HTTPException(400, "Unsupported file format")`), load, split with
`chunk_size=1000, chunk_overlap=200`, and overwrite the single global
`vectorstore` with the new chunk index. -/
def uploadInner (env : Env) (st : BackendState) (file : UploadFile) :
    Except Exn UploadResponse × BackendState :=
  if strEndsWith file.filename ".pdf" then
    match env.loadPdf file with
    | .error e => (.error (.other e), st)
    | .ok documents =>
        let chunks := env.split 1000 200 documents
        (.ok ⟨"Document uploaded and processed successfully", chunks.length⟩,
         ⟨some chunks, st.sessions⟩)
  else if strEndsWith file.filename ".docx" then
    match env.loadDocx file with
    | .error e => (.error (.other e), st)
    | .ok documents =>
        let chunks := env.split 1000 200 documents
        (.ok ⟨"Document uploaded and processed successfully", chunks.length⟩,
         ⟨some chunks, st.sessions⟩)
  else
    (.error (.http 400 "Unsupported file format"), st)

/-- `POST /upload` (backend.py:59-100): the `try` body with the blanket
`except Exception as e: raise HTTPException(500, str(e))` — which also catches
the handler's own 400 `HTTPException`.  Note the route takes no session id at
all: the index it builds is the single process-global `vectorstore`. -/
def upload_document (env : Env) (st : BackendState) (file : UploadFile) :
    Except HTTPError UploadResponse × BackendState :=
  match uploadInner env st file with
  | (.ok r, st') => (.ok r, st')
  | (.error e, st') => (.error ⟨500, strOfExn e⟩, st')

/-- `GET /history/{session_id}` (backend.py:178-182): the history list of the
session, or `[]` when the id is unknown — never an error. -/
def get_history (st : BackendState) (sid : String) : List Turn :=
  match lookupSession st.sessions sid with
  | none => []
  | some s => s.history

/-- Acknowledgement body of `DELETE /session/{session_id}` (backend.py:188). -/
structure Ack where
  message : String
  deriving Repr, DecidableEq

/-- `DELETE /session/{session_id}` (backend.py:184-188): delete the session if
present, answer `"Session cleared"` unconditionally. -/
def clear_session (st : BackendState) (sid : String) : Ack × BackendState :=
  (⟨"Session cleared"⟩, ⟨st.vectorstore, eraseSession st.sessions sid⟩)

/-- Run a sequence of `POST /query` calls in order, threading the global state
and collecting each call's result. -/
def runQueries (env : Env) (st : BackendState) :
    List (QueryRequest × String) → BackendState × List (Except HTTPError ChatResponse)
  | [] => (st, [])
  | (req, now) :: rest =>
      let r := query_chatbot env st req now
      let rs := runQueries env r.2 rest
      (rs.1, r.1 :: rs.2)

/-- `t` occurs as a contiguous substring of `s`. -/
def containsStr (s t : String) : Prop := ∃ a b : String, s = a ++ t ++ b

/-- The session object `query_chatbot` works with after get-or-create: the
stored session when the id is known, a fresh empty one otherwise. -/
def sessionOf (st : BackendState) (sid : String) : Session :=
  (lookupSession st.sessions sid).getD emptySession

/-- A concrete collaborator environment used to evaluate the handlers on
concrete inputs: the loaders extract the file bytes as one document, the
splitter returns the documents unchanged, retrieval returns the first `k`
chunks, the chain echoes the indexed chunks, and the LLM echoes its prompt. -/
def demoEnv : Env where
  loadPdf := fun f => .ok [f.content]
  loadDocx := fun f => .ok [f.content]
  split := fun _ _ docs => docs
  retrieve := fun vs k _ => vs.take k
  chain := fun vs _ _ _ => .ok ("doc-answer:" ++ String.intercalate "," vs)
  llm := fun p => .ok ("LLM:" ++ p)

/-! ### Lemmas about the sessions dictionary -/

theorem lookupSession_setSession_self (l : List (String × Session)) (sid : String)
    (s : Session) : lookupSession (setSession l sid s) sid = some s := by
  induction l with
  | nil => simp [setSession, lookupSession]
  | cons kv rest ih =>
      obtain ⟨k, v⟩ := kv
      by_cases h : k = sid
      · simp [setSession, h, lookupSession]
      · simp [setSession, h, lookupSession, ih]

theorem lookupSession_setSession_ne (l : List (String × Session)) (sid sid' : String)
    (s : Session) (h : sid' ≠ sid) :
    lookupSession (setSession l sid s) sid' = lookupSession l sid' := by
  induction l with
  | nil => simp [setSession, lookupSession, Ne.symm h]
  | cons kv rest ih =>
      obtain ⟨k, v⟩ := kv
      by_cases hk : k = sid
      · subst hk; simp [setSession, lookupSession, Ne.symm h]
      · simp [setSession, hk, lookupSession, ih]

theorem lookupSession_eraseSession_self (l : List (String × Session)) (sid : String) :
    lookupSession (eraseSession l sid) sid = none := by
  induction l with
  | nil => simp [eraseSession, lookupSession]
  | cons kv rest ih =>
      obtain ⟨k, v⟩ := kv
      by_cases h : k = sid
      · simp [eraseSession, h, ih]
      · simp [eraseSession, h, lookupSession, ih]

theorem lookupSession_eraseSession_ne (l : List (String × Session)) (sid sid' : String)
    (h : sid' ≠ sid) :
    lookupSession (eraseSession l sid) sid' = lookupSession l sid' := by
  induction l with
  | nil => simp [eraseSession]
  | cons kv rest ih =>
      obtain ⟨k, v⟩ := kv
      by_cases hk : k = sid
      · subst hk; simp [eraseSession, lookupSession, ih, Ne.symm h]
      · simp [eraseSession, hk, lookupSession, ih]

theorem eraseSession_idem (l : List (String × Session)) (sid : String) :
    eraseSession (eraseSession l sid) sid = eraseSession l sid := by
  induction l with
  | nil => simp [eraseSession]
  | cons kv rest ih =>
      obtain ⟨k, v⟩ := kv
      by_cases h : k = sid
      · simp [eraseSession, h, ih]
      · simp [eraseSession, h, ih]

theorem get_history_eq (st : BackendState) (sid : String) :
    get_history st sid = (sessionOf st sid).history := by
  cases h : lookupSession st.sessions sid <;>
    simp [get_history, sessionOf, h, emptySession]

theorem lookupSession_getOrCreate_self (l : List (String × Session)) (sid : String) :
    lookupSession (getOrCreate l sid) sid
      = some ((lookupSession l sid).getD emptySession) := by
  unfold getOrCreate
  cases h : lookupSession l sid <;> simp [h, lookupSession_setSession_self]

theorem lookupSession_getOrCreate_ne (l : List (String × Session)) (sid sid' : String)
    (h : sid' ≠ sid) :
    lookupSession (getOrCreate l sid) sid' = lookupSession l sid' := by
  unfold getOrCreate
  cases hh : lookupSession l sid
  · simp [hh, lookupSession_setSession_ne _ _ _ _ h]
  · simp [hh]

/-! ### Branch lemmas for the query handler -/

theorem queryInner_doc_none (env : Env) (st : BackendState) (q s now : String)
    (hv : st.vectorstore = none) :
    queryInner env st ⟨q, "document_only", s⟩ now
      = (.error (.http 400 "No document uploaded"),
         ⟨st.vectorstore, getOrCreate st.sessions s⟩) := by
  unfold queryInner
  simp [hv]

theorem queryInner_doc_some (env : Env) (st : BackendState) (q s now : String)
    (vs : List String) (hv : st.vectorstore = some vs) :
    queryInner env st ⟨q, "document_only", s⟩ now
      = match env.chain vs 3 (sessionOf st s).memory q with
        | .error e => (.error (.other e), ⟨st.vectorstore, getOrCreate st.sessions s⟩)
        | .ok answer =>
            (.ok ⟨answer, s⟩,
             ⟨st.vectorstore,
              setSession (getOrCreate st.sessions s) s
                ⟨(sessionOf st s).history ++ [⟨q, answer, now, "document_only"⟩],
                 (sessionOf st s).memory ++ [(q, answer)]⟩⟩) := by
  unfold queryInner sessionOf
  simp only [hv, lookupSession_getOrCreate_self, Option.getD_some]
  cases hc : env.chain vs 3 ((lookupSession st.sessions s).getD emptySession).memory q <;>
    simp [hc]

theorem queryInner_hybrid (env : Env) (st : BackendState) (q m s now : String)
    (hm : ¬(m = "document_only")) :
    queryInner env st ⟨q, m, s⟩ now
      = match env.llm (hybridPrompt env st.vectorstore (sessionOf st s).history q) with
        | .error e => (.error (.other e), ⟨st.vectorstore, getOrCreate st.sessions s⟩)
        | .ok answer =>
            (.ok ⟨answer, s⟩,
             ⟨st.vectorstore,
              setSession (getOrCreate st.sessions s) s
                ⟨(sessionOf st s).history ++ [⟨q, answer, now, m⟩],
                 (sessionOf st s).memory⟩⟩) := by
  unfold queryInner sessionOf
  simp only [hm, lookupSession_getOrCreate_self, Option.getD_some, if_neg]
  cases hl : env.llm
      (hybridPrompt env st.vectorstore
        ((lookupSession st.sessions s).getD emptySession).history q) <;>
    simp [hl]

/-- One `POST /query` call, summarised: the global vectorstore is never
changed; a successful call appends exactly the new turn to its session's
history; a failed call changes no session's history; other sessions' histories
are never touched. -/
theorem query_chatbot_history (env : Env) (st : BackendState) (req : QueryRequest)
    (now : String) :
    (query_chatbot env st req now).2.vectorstore = st.vectorstore ∧
    (∀ resp, (query_chatbot env st req now).1 = .ok resp →
        get_history (query_chatbot env st req now).2 req.session_id
          = get_history st req.session_id
              ++ [⟨req.question, resp.answer, now, req.mode⟩]) ∧
    (∀ e, (query_chatbot env st req now).1 = .error e →
        ∀ sid, get_history (query_chatbot env st req now).2 sid
          = get_history st sid) ∧
    (∀ sid, sid ≠ req.session_id →
        get_history (query_chatbot env st req now).2 sid = get_history st sid) := by
  obtain ⟨q, m, s⟩ := req
  have hcreate : ∀ vs, get_history (⟨vs, getOrCreate st.sessions s⟩ : BackendState) s
      = get_history st s := by
    intro vs
    rw [get_history_eq, get_history_eq]
    simp [sessionOf, lookupSession_getOrCreate_self]
  have hcreateNe : ∀ vs sid, sid ≠ s →
      get_history (⟨vs, getOrCreate st.sessions s⟩ : BackendState) sid
        = get_history st sid := by
    intro vs sid hne
    rw [get_history_eq, get_history_eq]
    simp [sessionOf, lookupSession_getOrCreate_ne _ _ _ hne]
  have hset : ∀ vs ses, get_history
        (⟨vs, setSession (getOrCreate st.sessions s) s ses⟩ : BackendState) s
      = ses.history := by
    intro vs ses
    rw [get_history_eq]
    simp [sessionOf, lookupSession_setSession_self]
  have hsetNe : ∀ vs ses sid, sid ≠ s → get_history
        (⟨vs, setSession (getOrCreate st.sessions s) s ses⟩ : BackendState) sid
      = get_history st sid := by
    intro vs ses sid hne
    rw [get_history_eq, get_history_eq]
    simp [sessionOf, lookupSession_setSession_ne _ _ _ _ hne,
      lookupSession_getOrCreate_ne _ _ _ hne]
  by_cases hm : m = "document_only"
  · subst hm
    cases hv : st.vectorstore with
    | none =>
        have heq : query_chatbot env st ⟨q, "document_only", s⟩ now
            = (.error ⟨500, strOfExn (.http 400 "No document uploaded")⟩,
               ⟨st.vectorstore, getOrCreate st.sessions s⟩) := by
          unfold query_chatbot
          rw [queryInner_doc_none env st q s now hv]
        rw [heq]
        refine ⟨hv, ?_, ?_, ?_⟩
        · intro resp h; cases h
        · intro e _ sid
          by_cases hsid : sid = s
          · subst hsid; exact hcreate _
          · exact hcreateNe _ _ hsid
        · intro sid hsid; exact hcreateNe _ _ hsid
    | some vs =>
        have heq0 := queryInner_doc_some env st q s now vs hv
        cases hc : env.chain vs 3 (sessionOf st s).memory q with
        | error e =>
            have heq : query_chatbot env st ⟨q, "document_only", s⟩ now
                = (.error ⟨500, strOfExn (.other e)⟩,
                   ⟨st.vectorstore, getOrCreate st.sessions s⟩) := by
              unfold query_chatbot
              rw [heq0, hc]
            rw [heq]
            refine ⟨hv, ?_, ?_, ?_⟩
            · intro resp h; cases h
            · intro e' _ sid
              by_cases hsid : sid = s
              · subst hsid; exact hcreate _
              · exact hcreateNe _ _ hsid
            · intro sid hsid; exact hcreateNe _ _ hsid
        | ok answer =>
            have heq : query_chatbot env st ⟨q, "document_only", s⟩ now
                = (.ok ⟨answer, s⟩,
                   ⟨st.vectorstore,
                    setSession (getOrCreate st.sessions s) s
                      ⟨(sessionOf st s).history
                          ++ [⟨q, answer, now, "document_only"⟩],
                       (sessionOf st s).memory ++ [(q, answer)]⟩⟩) := by
              unfold query_chatbot
              rw [heq0, hc]
            rw [heq]
            refine ⟨hv, ?_, ?_, ?_⟩
            · intro resp h
              cases h
              rw [hset, get_history_eq]
            · intro e h; cases h
            · intro sid hsid; exact hsetNe _ _ _ hsid
  · have heq0 := queryInner_hybrid env st q m s now hm
    cases hl : env.llm (hybridPrompt env st.vectorstore (sessionOf st s).history q) with
    | error e =>
        have heq : query_chatbot env st ⟨q, m, s⟩ now
            = (.error ⟨500, strOfExn (.other e)⟩,
               ⟨st.vectorstore, getOrCreate st.sessions s⟩) := by
          unfold query_chatbot
          rw [heq0, hl]
        rw [heq]
        refine ⟨rfl, ?_, ?_, ?_⟩
        · intro resp h; cases h
        · intro e' _ sid
          by_cases hsid : sid = s
          · subst hsid; exact hcreate _
          · exact hcreateNe _ _ hsid
        · intro sid hsid; exact hcreateNe _ _ hsid
    | ok answer =>
        have heq : query_chatbot env st ⟨q, m, s⟩ now
            = (.ok ⟨answer, s⟩,
               ⟨st.vectorstore,
                setSession (getOrCreate st.sessions s) s
                  ⟨(sessionOf st s).history ++ [⟨q, answer, now, m⟩],
                   (sessionOf st s).memory⟩⟩) := by
          unfold query_chatbot
          rw [heq0, hl]
        rw [heq]
        refine ⟨rfl, ?_, ?_, ?_⟩
        · intro resp h
          cases h
          rw [hset, get_history_eq]
        · intro e h; cases h
        · intro sid hsid; exact hsetNe _ _ _ hsid

theorem runQueries_cons (env : Env) (st : BackendState) (req : QueryRequest)
    (now : String) (rest : List (QueryRequest × String)) :
    runQueries env st ((req, now) :: rest)
      = ((runQueries env (query_chatbot env st req now).2 rest).1,
         (query_chatbot env st req now).1
           :: (runQueries env (query_chatbot env st req now).2 rest).2) := rfl

/-- Sequencing successful queries for one session appends their questions to
that session's history, in call order. -/
theorem runQueries_history_ok (env : Env) (reqs : List (QueryRequest × String)) :
    ∀ (st : BackendState) (s : String),
      (∀ r ∈ reqs, (Prod.fst r).session_id = s) →
      (∀ res ∈ (runQueries env st reqs).2, res.isOk = true) →
      (get_history (runQueries env st reqs).1 s).map Turn.question
        = (get_history st s).map Turn.question
            ++ reqs.map (fun r => (Prod.fst r).question) := by
  induction reqs with
  | nil => intro st s _ _; simp [runQueries]
  | cons rn rest ih =>
      intro st s hs hok
      obtain ⟨req, now⟩ := rn
      have hsid : req.session_id = s := hs (req, now) (List.mem_cons_self _ _)
      have hok1 : (query_chatbot env st req now).1.isOk = true := by
        apply hok
        rw [runQueries_cons]
        exact List.mem_cons_self _ _
      obtain ⟨resp, hresp⟩ : ∃ resp, (query_chatbot env st req now).1 = .ok resp := by
        cases h : (query_chatbot env st req now).1 with
        | error e => rw [h] at hok1; simp [Except.isOk, Except.toBool] at hok1
        | ok r => exact ⟨r, rfl⟩
      have hstep := (query_chatbot_history env st req now).2.1 resp hresp
      rw [hsid] at hstep
      have hrest := ih (query_chatbot env st req now).2 s
        (fun r hr => hs r (List.mem_cons_of_mem _ hr))
        (fun res hres => by
          apply hok
          rw [runQueries_cons]
          exact List.mem_cons_of_mem _ hres)
      rw [runQueries_cons]
      simp only at hrest ⊢
      rw [hrest, hstep]
      simp

/-- C3.  After N successful queries for a session, `history` returns exactly N
turns in call order; any failed query call leaves every session's history (and
so the turn count) unchanged. -/
theorem c3_history_append_only_order_preserving :
    (∀ (env : Env) (st : BackendState) (reqs : List (QueryRequest × String))
        (s : String),
      (∀ r ∈ reqs, (Prod.fst r).session_id = s) →
      get_history st s = [] →
      (∀ res ∈ (runQueries env st reqs).2, res.isOk = true) →
      (get_history (runQueries env st reqs).1 s).length = reqs.length ∧
      (get_history (runQueries env st reqs).1 s).map Turn.question
        = reqs.map fun r => (Prod.fst r).question) ∧
    (∀ (env : Env) (st : BackendState) (req : QueryRequest) (now : String)
        (e : HTTPError),
      (query_chatbot env st req now).1 = .error e →
      ∀ sid, get_history (query_chatbot env st req now).2 sid
        = get_history st sid) := by
  constructor
  · intro env st reqs s hs h0 hok
    have h := runQueries_history_ok env reqs st s hs hok
    rw [h0] at h
    simp only [List.map_nil, List.nil_append] at h
    refine ⟨?_, h⟩
    have := congrArg List.length h
    simpa using this
  · intro env st req now e he sid
    exact (query_chatbot_history env st req now).2.2.1 e he sid

/-- The two queries used to instantiate the C3 theorem. -/
def c3Reqs : List (QueryRequest × String) :=
  [(⟨"q1", "hybrid", "s"⟩, "t1"), (⟨"q2", "hybrid", "s"⟩, "t2")]

/-- Witness for C3 at a concrete two-query run. -/
theorem c3_witness :
    (get_history (runQueries demoEnv initState c3Reqs).1 "s").length = 2 ∧
    (get_history (runQueries demoEnv initState c3Reqs).1 "s").map Turn.question
      = ["q1", "q2"] := by
  have h := c3_history_append_only_order_preserving.1 demoEnv initState c3Reqs "s"
    (by decide) (by rfl) (by decide)
  exact ⟨h.1, h.2.trans (by rfl)⟩

/-- C9.  `GET /history/{sid}` on an id absent from the session store succeeds
and answers the empty turn list (backend.py:180-181) — there is no
`SessionNotFound` error. -/
theorem c9_history_unknown_session_empty (st : BackendState) (sid : String)
    (h : lookupSession st.sessions sid = none) : get_history st sid = [] := by
  simp [get_history, h]

/-- Witness for C9 on a never-created id. -/
theorem c9_witness :
    lookupSession initState.sessions "ghost" = none ∧
    get_history initState "ghost" = [] :=
  ⟨rfl, c9_history_unknown_session_empty initState "ghost" rfl⟩

/-- C10.  `DELETE /session/{sid}` always succeeds with the same
acknowledgement, including for ids never created, and deleting twice leaves
the store exactly as deleting once (backend.py:184-188). -/
theorem c10_delete_idempotent_total (st : BackendState) (sid : String) :
    (clear_session st sid).1 = ⟨"Session cleared"⟩ ∧
    clear_session (clear_session st sid).2 sid = clear_session st sid := by
  refine ⟨rfl, ?_⟩
  unfold clear_session
  simp [eraseSession_idem]

/-! ### Prompt-composition lemmas (hybrid mode) -/

theorem containsStr_append_left (u s t : String) (h : containsStr s t) :
    containsStr (u ++ s) t := by
  obtain ⟨a, b, rfl⟩ := h
  exact ⟨u ++ a, b, by simp [String.append_assoc]⟩

theorem docPrompt_contains_context (ctx q : String) :
    containsStr (docPrompt ctx q) ("Context from document: " ++ ctx) := by
  refine ⟨"", "\n                \nQuestion: " ++ q ++
    "\n\nPlease answer using both the document context and your general knowledge.", ?_⟩
  simp [docPrompt, String.append_assoc, String.empty_append]

theorem docPrompt_contains_question (ctx q : String) :
    containsStr (docPrompt ctx q) ("Question: " ++ q) := by
  refine ⟨"Context from document: " ++ ctx ++ "\n                \n",
    "\n\nPlease answer using both the document context and your general knowledge.", ?_⟩
  apply String.ext
  simp [docPrompt, String.data_append, List.append_assoc]

theorem hybridPrompt_contains (env : Env) (vsOpt : Option (List String))
    (hist : List Turn) (q t : String) (h : containsStr (basePrompt env vsOpt q) t) :
    containsStr (hybridPrompt env vsOpt hist q) t := by
  unfold hybridPrompt
  by_cases hh : historyText hist = ""
  · simpa [hh] using h
  · simp only [hh, if_neg, if_false]
    exact containsStr_append_left _ _ _ h

theorem historyText_nil : historyText [] = "" := rfl

theorem hybridPrompt_none_eq (env : Env) (hist : List Turn) (q : String) :
    ∃ pre, hybridPrompt env none hist q = pre ++ q ∧ (hist = [] → pre = "") := by
  unfold hybridPrompt basePrompt
  by_cases hh : historyText hist = ""
  · exact ⟨"", by simp [hh, String.empty_append], fun _ => rfl⟩
  · refine ⟨"Previous conversation:\n" ++ historyText hist ++ "\n\n", by simp [hh], ?_⟩
    intro h0
    subst h0
    exact absurd historyText_nil hh

theorem lastN_idem (n : Nat) (l : List α) : lastN n (lastN n l) = lastN n l := by
  unfold lastN
  rw [List.length_drop]
  have h : l.length - (l.length - n) - n = 0 := by omega
  rw [h, List.drop_zero]

theorem hybridPrompt_lastN (env : Env) (vsOpt : Option (List String))
    (hist : List Turn) (q : String) :
    hybridPrompt env vsOpt hist q = hybridPrompt env vsOpt (lastN 3 hist) q := by
  have h : historyText (lastN 3 hist) = historyText hist := by
    unfold historyText
    rw [lastN_idem]
  unfold hybridPrompt
  rw [h]

theorem append_ne_empty_left (s t : String) (h : s.data ≠ []) : s ++ t ≠ "" := by
  intro he
  have hd := congrArg String.data he
  rw [String.data_append] at hd
  simp only [List.append_eq_nil] at hd
  exact h hd.1

theorem historyText_single (q a ts m : String) :
    historyText [⟨q, a, ts, m⟩] = "Human: " ++ q ++ "\nAI: " ++ a := rfl

theorem historyText_single_ne_empty (q a ts m : String) :
    historyText [⟨q, a, ts, m⟩] ≠ "" := by
  rw [historyText_single]
  apply append_ne_empty_left
  rw [String.data_append, String.data_append]
  intro h
  simp only [List.append_eq_nil] at h
  exact absurd h.1.1 (by decide)

/-- Result of a hybrid-mode query, in terms of the prompt the handler sends to
the LLM. -/
theorem query_chatbot_hybrid_result (env : Env) (st : BackendState)
    (q s now : String) :
    (query_chatbot env st ⟨q, "hybrid", s⟩ now).1
      = match env.llm (hybridPrompt env st.vectorstore (get_history st s) q) with
        | .ok a => .ok ⟨a, s⟩
        | .error e => .error ⟨500, e⟩ := by
  have hm : ¬(("hybrid" : String) = "document_only") := by decide
  unfold query_chatbot
  rw [queryInner_hybrid env st q "hybrid" s now hm, get_history_eq]
  cases hl : env.llm (hybridPrompt env st.vectorstore (sessionOf st s).history q) <;>
    simp [hl, strOfExn]

/-! ### Branch lemmas for the upload handler -/

theorem upload_document_pdf_ok (env : Env) (st : BackendState) (file : UploadFile)
    (docs : List String) (hp : strEndsWith file.filename ".pdf" = true)
    (hl : env.loadPdf file = .ok docs) :
    upload_document env st file
      = (.ok ⟨"Document uploaded and processed successfully",
              (env.split 1000 200 docs).length⟩,
         ⟨some (env.split 1000 200 docs), st.sessions⟩) := by
  unfold upload_document uploadInner
  rw [if_pos hp, hl]

theorem upload_document_pdf_err (env : Env) (st : BackendState) (file : UploadFile)
    (e : String) (hp : strEndsWith file.filename ".pdf" = true)
    (hl : env.loadPdf file = .error e) :
    upload_document env st file = (.error ⟨500, e⟩, st) := by
  unfold upload_document uploadInner
  rw [if_pos hp, hl]
  rfl

theorem upload_document_docx_ok (env : Env) (st : BackendState) (file : UploadFile)
    (docs : List String) (hp : strEndsWith file.filename ".pdf" = false)
    (hd : strEndsWith file.filename ".docx" = true)
    (hl : env.loadDocx file = .ok docs) :
    upload_document env st file
      = (.ok ⟨"Document uploaded and processed successfully",
              (env.split 1000 200 docs).length⟩,
         ⟨some (env.split 1000 200 docs), st.sessions⟩) := by
  unfold upload_document uploadInner
  rw [if_neg (by simp [hp]), if_pos hd, hl]

theorem upload_document_docx_err (env : Env) (st : BackendState) (file : UploadFile)
    (e : String) (hp : strEndsWith file.filename ".pdf" = false)
    (hd : strEndsWith file.filename ".docx" = true)
    (hl : env.loadDocx file = .error e) :
    upload_document env st file = (.error ⟨500, e⟩, st) := by
  unfold upload_document uploadInner
  rw [if_neg (by simp [hp]), if_pos hd, hl]
  rfl

theorem upload_document_unsupported (env : Env) (st : BackendState)
    (file : UploadFile) (hp : strEndsWith file.filename ".pdf" = false)
    (hd : strEndsWith file.filename ".docx" = false) :
    upload_document env st file
      = (.error ⟨500, "400: Unsupported file format"⟩, st) := by
  unfold upload_document uploadInner
  rw [if_neg (by simp [hp]), if_neg (by simp [hd])]
  rfl

/-! ### Claim theorems -/

/-- C7.  The hybrid-mode prompt is composed as specified: with an index, the
top-2 retrieved chunks are joined and prefixed to the question inside the
context template; without one, the prompt ends in the raw question (with empty
prefix when there is no history); only the last 3 turns matter; and after a
first successful hybrid query, the second hybrid query's prompt contains the
first query's question and answer as a `Human:`/`AI:` block, and the second
query's result is exactly the LLM's response to that composed prompt. -/
theorem c7_hybrid_prompt_composition :
    (∀ (env : Env) (vs : List String) (hist : List Turn) (q : String),
        containsStr (hybridPrompt env (some vs) hist q)
          ("Context from document: "
            ++ String.intercalate "\n" (env.retrieve vs 2 q)) ∧
        containsStr (hybridPrompt env (some vs) hist q) ("Question: " ++ q)) ∧
    (∀ (env : Env) (hist : List Turn) (q : String),
        ∃ pre, hybridPrompt env none hist q = pre ++ q ∧ (hist = [] → pre = "")) ∧
    (∀ (env : Env) (vsOpt : Option (List String)) (hist : List Turn) (q : String),
        hybridPrompt env vsOpt hist q = hybridPrompt env vsOpt (lastN 3 hist) q) ∧
    (∀ (env : Env) (st : BackendState) (s q1 q2 now1 a1 : String),
        get_history st s = [] →
        (query_chatbot env st ⟨q1, "hybrid", s⟩ now1).1 = .ok ⟨a1, s⟩ →
        containsStr
          (hybridPrompt env
            (query_chatbot env st ⟨q1, "hybrid", s⟩ now1).2.vectorstore
            (get_history (query_chatbot env st ⟨q1, "hybrid", s⟩ now1).2 s) q2)
          ("Human: " ++ q1 ++ "\nAI: " ++ a1) ∧
        ∀ now2,
          (query_chatbot env (query_chatbot env st ⟨q1, "hybrid", s⟩ now1).2
              ⟨q2, "hybrid", s⟩ now2).1
            = match env.llm (hybridPrompt env
                  (query_chatbot env st ⟨q1, "hybrid", s⟩ now1).2.vectorstore
                  (get_history (query_chatbot env st ⟨q1, "hybrid", s⟩ now1).2 s)
                  q2) with
              | .ok a => .ok ⟨a, s⟩
              | .error e => .error ⟨500, e⟩) := by
  refine ⟨?_, ?_, ?_, ?_⟩
  · intro env vs hist q
    have h1 : containsStr (basePrompt env (some vs) q)
        ("Context from document: "
          ++ String.intercalate "\n" (env.retrieve vs 2 q)) := by
      unfold basePrompt
      exact docPrompt_contains_context _ _
    have h2 : containsStr (basePrompt env (some vs) q) ("Question: " ++ q) := by
      unfold basePrompt
      exact docPrompt_contains_question _ _
    exact ⟨hybridPrompt_contains env (some vs) hist q _ h1,
           hybridPrompt_contains env (some vs) hist q _ h2⟩
  · intro env hist q
    exact hybridPrompt_none_eq env hist q
  · intro env vsOpt hist q
    exact hybridPrompt_lastN env vsOpt hist q
  · intro env st s q1 q2 now1 a1 h0 hok
    have hmaster := query_chatbot_history env st ⟨q1, "hybrid", s⟩ now1
    have hh1 : get_history (query_chatbot env st ⟨q1, "hybrid", s⟩ now1).2 s
        = [⟨q1, a1, now1, "hybrid"⟩] := by
      have h := hmaster.2.1 ⟨a1, s⟩ hok
      simpa [h0] using h
    constructor
    · rw [hh1]
      unfold hybridPrompt
      rw [if_neg (historyText_single_ne_empty q1 a1 now1 "hybrid"),
        historyText_single]
      exact ⟨"Previous conversation:\n",
        "\n\n" ++ basePrompt env
          (query_chatbot env st ⟨q1, "hybrid", s⟩ now1).2.vectorstore q2,
        by simp [String.append_assoc]⟩
    · intro now2
      exact query_chatbot_hybrid_result env
        (query_chatbot env st ⟨q1, "hybrid", s⟩ now1).2 q2 s now2

/-- Witness for C7: a concrete two-query hybrid run; the second prompt contains
the first turn, and the second answer is the LLM's output on the composed
prompt. -/
theorem c7_witness :
    containsStr
      (hybridPrompt demoEnv
        (query_chatbot demoEnv initState ⟨"q1", "hybrid", "s"⟩ "t1").2.vectorstore
        (get_history (query_chatbot demoEnv initState ⟨"q1", "hybrid", "s"⟩ "t1").2 "s")
        "q2")
      ("Human: " ++ "q1" ++ "\nAI: " ++ "LLM:q1") ∧
    (query_chatbot demoEnv (query_chatbot demoEnv initState ⟨"q1", "hybrid", "s"⟩ "t1").2
        ⟨"q2", "hybrid", "s"⟩ "t2").1
      = .ok ⟨"LLM:Previous conversation:\nHuman: q1\nAI: LLM:q1\n\nq2", "s"⟩ := by
  have h := c7_hybrid_prompt_composition.2.2.2 demoEnv initState "s" "q1" "q2" "t1"
    "LLM:q1" (by rfl) (by rfl)
  refine ⟨h.1, ?_⟩
  rw [h.2 "t2"]
  rfl

/-- C4 amended.  The query handler performs no emptiness check on the
question, in any mode: for an empty or whitespace-only question, in every
non-`document_only` mode the raw question is forwarded to the generation
model and, on success, the model's output is returned and a turn appended; in
`document_only` mode with an index present the raw question is forwarded to
the retrieval chain likewise; and in `document_only` mode with no index the
failure is the (500-wrapped) no-document error — never an `EmptyQuestion`
error, which exists nowhere in the code. -/
theorem c4_no_empty_question_validation (env : Env) (st : BackendState)
    (m s q now : String) (hq : isBlank q = true) :
    ((m ≠ "document_only") →
      ∀ a, env.llm (hybridPrompt env st.vectorstore (get_history st s) q)
          = .ok a →
        (query_chatbot env st ⟨q, m, s⟩ now).1 = .ok ⟨a, s⟩ ∧
        get_history (query_chatbot env st ⟨q, m, s⟩ now).2 s
          = get_history st s ++ [⟨q, a, now, m⟩]) ∧
    (m = "document_only" →
      ∀ vs, st.vectorstore = some vs →
      ∀ a, env.chain vs 3 (sessionOf st s).memory q = .ok a →
        (query_chatbot env st ⟨q, m, s⟩ now).1 = .ok ⟨a, s⟩ ∧
        get_history (query_chatbot env st ⟨q, m, s⟩ now).2 s
          = get_history st s ++ [⟨q, a, now, m⟩]) ∧
    (m = "document_only" → st.vectorstore = none →
      (query_chatbot env st ⟨q, m, s⟩ now).1
        = .error ⟨500, "400: No document uploaded"⟩) := by
  refine ⟨?_, ?_, ?_⟩
  · intro hm a hllm
    rw [get_history_eq] at hllm
    have h1 : (query_chatbot env st ⟨q, m, s⟩ now).1 = .ok ⟨a, s⟩ := by
      unfold query_chatbot
      rw [queryInner_hybrid env st q m s now hm, hllm]
    refine ⟨h1, ?_⟩
    have h2 := (query_chatbot_history env st ⟨q, m, s⟩ now).2.1 ⟨a, s⟩ h1
    simpa using h2
  · intro hm vs hv a hchain
    subst hm
    have h1 : (query_chatbot env st ⟨q, "document_only", s⟩ now).1 = .ok ⟨a, s⟩ := by
      unfold query_chatbot
      rw [queryInner_doc_some env st q s now vs hv, hchain]
    refine ⟨h1, ?_⟩
    have h2 := (query_chatbot_history env st ⟨q, "document_only", s⟩ now).2.1
      ⟨a, s⟩ h1
    simpa using h2
  · intro hm hv
    subst hm
    unfold query_chatbot
    rw [queryInner_doc_none env st q s now hv]
    rfl

/-- Counterexample to C4 as stated: a whitespace-only question in hybrid mode
does not fail — the generation model is invoked (the demo LLM's output on the
raw whitespace prompt is returned as the answer). -/
theorem c4_counterexample :
    isBlank "   " = true ∧
    (query_chatbot demoEnv initState ⟨"   ", "hybrid", "s1"⟩ "t0").1
      = .ok ⟨"LLM:   ", "s1"⟩ := by
  exact ⟨by decide, by rfl⟩

/-- Witness for the amended C4 at concrete whitespace-only questions, in both
hybrid and document_only (with and without an index) modes. -/
theorem c4_witness :
    ((query_chatbot demoEnv initState ⟨"   ", "hybrid", "s9"⟩ "t9").1
      = .ok ⟨"LLM:   ", "s9"⟩ ∧
    get_history (query_chatbot demoEnv initState ⟨"   ", "hybrid", "s9"⟩ "t9").2 "s9"
      = [⟨"   ", "LLM:   ", "t9", "hybrid"⟩]) ∧
    (query_chatbot demoEnv ⟨some ["K"], []⟩ ⟨" ", "document_only", "s8"⟩ "t8").1
      = .ok ⟨"doc-answer:K", "s8"⟩ ∧
    (query_chatbot demoEnv initState ⟨" ", "document_only", "s7"⟩ "t7").1
      = .error ⟨500, "400: No document uploaded"⟩ := by
  have h := (c4_no_empty_question_validation demoEnv initState "hybrid" "s9" "   "
      "t9" (by decide)).1 (by decide) "LLM:   " (by rfl)
  have h2 := (c4_no_empty_question_validation demoEnv ⟨some ["K"], []⟩
      "document_only" "s8" " " "t8" (by decide)).2.1 rfl ["K"] rfl
      "doc-answer:K" (by rfl)
  have h3 := (c4_no_empty_question_validation demoEnv initState
      "document_only" "s7" " " "t7" (by decide)).2.2 rfl rfl
  exact ⟨⟨h.1, h.2.trans (by rfl)⟩, h2.1, h3⟩

/-- C8.  A successful upload loaded the file with the loader chosen by its
extension, split it with the splitter configured as `chunk_size=1000,
chunk_overlap=200`, reported exactly the number of chunks the splitter
produced, and stored exactly those chunks as the new index. -/
theorem c8_upload_splitter_config_chunk_count (env : Env) (st : BackendState)
    (file : UploadFile) (resp : UploadResponse)
    (h : (upload_document env st file).1 = .ok resp) :
    ∃ docs : List String,
      ((strEndsWith file.filename ".pdf" = true ∧ env.loadPdf file = .ok docs) ∨
       (strEndsWith file.filename ".pdf" = false ∧
        strEndsWith file.filename ".docx" = true ∧
        env.loadDocx file = .ok docs)) ∧
      resp.chunks = (env.split 1000 200 docs).length ∧
      (upload_document env st file).2.vectorstore
        = some (env.split 1000 200 docs) := by
  by_cases hp : strEndsWith file.filename ".pdf" = true
  · cases hl : env.loadPdf file with
    | error e => rw [upload_document_pdf_err env st file e hp hl] at h; cases h
    | ok docs =>
        rw [upload_document_pdf_ok env st file docs hp hl] at h ⊢
        cases h
        exact ⟨docs, Or.inl ⟨hp, rfl⟩, rfl, rfl⟩
  · have hp' : strEndsWith file.filename ".pdf" = false := by
      cases hhh : strEndsWith file.filename ".pdf"
      · rfl
      · exact absurd hhh hp
    by_cases hd : strEndsWith file.filename ".docx" = true
    · cases hl : env.loadDocx file with
      | error e =>
          rw [upload_document_docx_err env st file e hp' hd hl] at h; cases h
      | ok docs =>
          rw [upload_document_docx_ok env st file docs hp' hd hl] at h ⊢
          cases h
          exact ⟨docs, Or.inr ⟨hp', hd, rfl⟩, rfl, rfl⟩
    · have hd' : strEndsWith file.filename ".docx" = false := by
        cases hhh : strEndsWith file.filename ".docx"
        · rfl
        · exact absurd hhh hd
      rw [upload_document_unsupported env st file hp' hd'] at h
      cases h

/-- Witness for C8 at a concrete `.pdf` upload. -/
theorem c8_witness :
    ∃ docs : List String,
      ((strEndsWith "a.pdf" ".pdf" = true
          ∧ demoEnv.loadPdf ⟨"a.pdf", "db"⟩ = .ok docs) ∨
       (strEndsWith "a.pdf" ".pdf" = false ∧ strEndsWith "a.pdf" ".docx" = true ∧
        demoEnv.loadDocx ⟨"a.pdf", "db"⟩ = .ok docs)) ∧
      (1 : Nat) = (demoEnv.split 1000 200 docs).length ∧
      (upload_document demoEnv initState ⟨"a.pdf", "db"⟩).2.vectorstore
        = some (demoEnv.split 1000 200 docs) :=
  c8_upload_splitter_config_chunk_count demoEnv initState ⟨"a.pdf", "db"⟩
    ⟨"Document uploaded and processed successfully", 1⟩ (by rfl)

/-- C1 evidence.  The index is process-global, not session-scoped: before any
upload, a `document_only` query for session `B` fails; `upload_document` takes
no session id at all, and after a single upload (never associated with `B`),
the same query for `B` succeeds with an answer drawn from the uploaded
document's chunks. -/
theorem c1_upload_changes_other_sessions_queries :
    (query_chatbot demoEnv initState ⟨"q", "document_only", "B"⟩ "t0").1
        = .error ⟨500, "400: No document uploaded"⟩ ∧
    (upload_document demoEnv initState ⟨"doc.pdf", "Alpha beta"⟩).1
        = .ok ⟨"Document uploaded and processed successfully", 1⟩ ∧
    (query_chatbot demoEnv
        (upload_document demoEnv initState ⟨"doc.pdf", "Alpha beta"⟩).2
        ⟨"q", "document_only", "B"⟩ "t1").1
      = .ok ⟨"doc-answer:Alpha beta", "B"⟩ := by
  exact ⟨by rfl, by rfl, by rfl⟩

/-- C2 evidence.  `document_only` with no index does fail and produces no
answer, but the handler's own `HTTPException(400, "No document uploaded")` is
caught by the blanket `except Exception` and re-raised as status 500 — a
server-error classification, not the claimed client-input 4xx. -/
theorem c2_doc_only_no_index_reports_500 :
    query_chatbot demoEnv initState ⟨"What is X?", "document_only", "s1"⟩ "t0"
      = (.error ⟨500, "400: No document uploaded"⟩,
         ⟨none, [("s1", emptySession)]⟩) := by
  rfl

/-- C5 evidence.  An unsupported extension does fail without touching the
stored index, but the handler's own `HTTPException(400, "Unsupported file
format")` is caught by the blanket `except Exception` at backend.py:97 and
re-raised as status 500, not the claimed 4xx. -/
theorem c5_upload_unsupported_reports_500 :
    upload_document demoEnv ⟨some ["old"], []⟩ ⟨"notes.txt", "hello"⟩
      = (.error ⟨500, "400: Unsupported file format"⟩, ⟨some ["old"], []⟩) := by
  rfl

/-- C6 evidence.  Deleting a session removes its history, but the document
index is the process-global `vectorstore`, which `clear_session` never
touches: a `document_only` query on the deleted id still succeeds from the
old document instead of failing with `NoDocumentIndexed`. -/
theorem c6_index_survives_session_deletion :
    get_history
      (clear_session
        (query_chatbot demoEnv
          (upload_document demoEnv initState ⟨"doc.pdf", "Alpha beta"⟩).2
          ⟨"q1", "document_only", "A"⟩ "t1").2 "A").2 "A" = [] ∧
    (query_chatbot demoEnv
        (clear_session
          (query_chatbot demoEnv
            (upload_document demoEnv initState ⟨"doc.pdf", "Alpha beta"⟩).2
            ⟨"q1", "document_only", "A"⟩ "t1").2 "A").2
        ⟨"q2", "document_only", "A"⟩ "t2").1
      = .ok ⟨"doc-answer:Alpha beta", "A"⟩ := by
  exact ⟨by rfl, by rfl⟩

end DocChatbot
